import Mathlib

/-!
# Verification of the chatbot-backend HTTP relay

Shallow embedding of the two JavaScript source files of the repository
(`src/unnamed/part_000`, the current server, and its older near-duplicate
`src/index.js`).  The spec's design notes adopt the richer variant
(`part_000`: input validation, `/health` route, bounded polling with
`maxAttempts = 60`, 10-second CSV fetch timeout) as the contract, so the
definitions below embed `part_000`; divergences of `index.js` are noted
where a claim touches them.

External effects (the spreadsheet HTTP fetch, the assistant API calls, the
wall clock) are passed in as explicit oracle parameters; the embedding
records which downstream services a request path consults.
-/

namespace ChatbotBackend

/-! ## Character/string primitives mirroring the JavaScript string operations -/

/-- Whitespace as recognised by JavaScript `String.prototype.trim` on the
ASCII range (space, tab, LF, CR, VT, FF). -/
def isWsChar (c : Char) : Bool :=
  c = ' ' || c = '\t' || c = '\n' || c = '\r' || c = '\x0b' || c = '\x0c'

/-- `l.trim()` on a character list: drop whitespace from both ends. -/
def trimChars (l : List Char) : List Char :=
  ((l.dropWhile isWsChar).reverse.dropWhile isWsChar).reverse

/-- `s.trim()` -/
def jsTrim (s : String) : String := ⟨trimChars s.data⟩

/-- Splitting on the regex `/\r?\n/`: a separator is either `"\r\n"` or a
bare `"\n"`; a `'\r'` not followed by `'\n'` is ordinary content. -/
def splitLinesAux : List Char → List Char → List (List Char)
  | [], acc => [acc.reverse]
  | '\r' :: '\n' :: rest, acc => acc.reverse :: splitLinesAux rest []
  | '\n' :: rest, acc => acc.reverse :: splitLinesAux rest []
  | c :: rest, acc => splitLinesAux rest (c :: acc)

/-- `csv.split(/\r?\n/)` -/
def splitLines (s : String) : List String :=
  (splitLinesAux s.data []).map fun l => ⟨l⟩

/-- `line.split(',')` (naive split, no quoted-field handling, exactly as in
the source). -/
def splitCommaAux : List Char → List Char → List (List Char)
  | [], acc => [acc.reverse]
  | ',' :: rest, acc => acc.reverse :: splitCommaAux rest []
  | c :: rest, acc => splitCommaAux rest (c :: acc)

/-- `line.split(',')` on a string. -/
def splitComma (s : String) : List String :=
  (splitCommaAux s.data []).map fun l => ⟨l⟩

/-- Remove one leading `'"'` if present — the `^"` alternative of the
regex `/^"|"$/g`. -/
def dropLeadQuote (l : List Char) : List Char :=
  match l with
  | c :: rest => if c = '"' then rest else l
  | [] => []

/-- Remove one trailing `'"'` if present — the `"$` alternative of
`/^"|"$/g`. -/
def dropTrailQuote (l : List Char) : List Char :=
  (dropLeadQuote l.reverse).reverse

/-- `c.replace(/^"|"$/g, '')`: the two anchored alternatives each match at
most once, so at most one leading and one trailing quote are removed. -/
def stripQuotes (l : List Char) : List Char :=
  dropTrailQuote (dropLeadQuote l)

/-- `c.replace(/^"|"$/g, '').trim()` — the per-field cleanup applied to
every header and data cell. -/
def cleanField (l : List Char) : List Char :=
  trimChars (stripQuotes l)

/-- `cleanField` on strings. -/
def cleanFieldStr (s : String) : String := ⟨cleanField s.data⟩

/-- ASCII case folding of a character's code point, modelling the
case-insensitivity of the `/i` regex flag on the ASCII headers the
source matches against. -/
def lowerN (c : Char) : Nat :=
  let n := c.toNat
  if 65 ≤ n && n ≤ 90 then n + 32 else n

/-- Case-folded code points of a character list. -/
def foldCase (l : List Char) : List Nat := l.map lowerN

/-- Boolean prefix test on `Nat` lists. -/
def natPrefix : List Nat → List Nat → Bool
  | [], _ => true
  | _ :: _, [] => false
  | a :: as, b :: bs => a == b && natPrefix as bs

/-- Boolean contiguous-sublist test on `Nat` lists. -/
def natInfix (needle : List Nat) : List Nat → Bool
  | [] => natPrefix needle []
  | b :: bs => natPrefix needle (b :: bs) || natInfix needle bs

/-- `/needle/i.test(h)`: case-insensitive substring test. -/
def regexTestCI (needle h : String) : Bool :=
  natInfix (foldCase needle.data) (foldCase h.data)

/-- `/rank/i.test(h)` -/
def testRank (h : String) : Bool := regexTestCI "rank" h

/-- `/company/i.test(h)` -/
def testCompany (h : String) : Bool := regexTestCI "company" h

/-! ## The CSV fetcher (`getRankData`) -/

/-- One parsed rank/company pair, `{ Rank, Company }` in the source. -/
structure RankRecord where
  Rank : String
  Company : String
deriving DecidableEq, Repr

/-- `cols[idx] || ''`: JavaScript indexing with a missing-index /
falsy-value fallback to the empty string.  An out-of-range index yields
`undefined`, and `undefined || ''` is `''`; an in-range empty string is
falsy and also yields `''`, which coincides with itself.  `idx` is `none`
when `findIndex` returned `-1` (then `cols[-1]` is `undefined`). -/
def fieldAt (cols : List String) : Option Nat → String
  | none => ""
  | some i => cols.getD i ""

/-- The non-blank lines of the body:
`csv.split(/\r?\n/).filter(l => l.trim())`. -/
def linesOf (csv : String) : List String :=
  (splitLines csv).filter fun l => !(jsTrim l == "")

/-- The cleaned comma-separated cells of one line:
`line.split(',').map(c => c.replace(/^"|"$/g, '').trim())`. -/
def colsOf (line : String) : List String :=
  (splitComma line).map cleanFieldStr

/-- The pure CSV-parsing stage of `getRankData` (`part_000` lines 58-70):
split into non-blank lines, shift off the header, locate the rank/company
columns by case-insensitive substring match, and map every remaining line
to a `RankRecord`. -/
def parseRankCsv (csv : String) : List RankRecord :=
  match linesOf csv with
  | [] => []
  | header :: dataLines =>
    let headers := colsOf header
    let rankIdx := headers.findIdx? testRank
    let companyIdx := headers.findIdx? testCompany
    dataLines.map fun line =>
      let cols := colsOf line
      { Rank := fieldAt cols rankIdx, Company := fieldAt cols companyIdx }

/-- `getRankData` (`part_000` lines 51-75).  The HTTP fetch is an oracle:
`Except.ok body` is a response whose body is the string `body`,
`Except.error e` a transport failure.  The `try/catch` wraps any failure
into the fixed message `'Failed to fetch rank data from Google Sheets'`;
the parsing stage itself is total and never reaches the catch. -/
def getRankData (fetch : Except String String) : Except String (List RankRecord) :=
  match fetch with
  | .error _ => .error "Failed to fetch rank data from Google Sheets"
  | .ok csv => .ok (parseRankCsv csv)

/-! ## The assistant client (`getGPTResponse`) -/

/-- The status-polling loop of `getGPTResponse` (`part_000` lines 95-103),
with the remote `runs.retrieve` calls abstracted as a stream
`retrieve : Nat → String` giving the status returned by the (n+1)-th
retrieval.  `fuel` equals `maxAttempts - attempts`, so `fuel > 0` is
exactly the source's guard `attempts < maxAttempts`; each iteration sleeps
one second, re-retrieves, and increments `attempts`.  Returns the final
status together with the final value of `attempts`. -/
def pollAux (retrieve : Nat → String) : Nat → Nat → String → String × Nat
  | 0, attempts, status => (status, attempts)
  | fuel + 1, attempts, status =>
    if status == "queued" || status == "in_progress" then
      pollAux retrieve fuel (attempts + 1) (retrieve (attempts + 1))
    else
      (status, attempts)

/-- The loop entered with `attempts = 0` and the bound `maxAttempts`. -/
def pollLoop (retrieve : Nat → String) (maxAttempts : Nat) : String × Nat :=
  pollAux retrieve maxAttempts 0 (retrieve 0)

/-- `maxAttempts = 60; // 60 seconds timeout` (`part_000` line 97). -/
def maxAttempts : Nat := 60

/-- The body of `getGPTResponse`'s `try` block after the run is created
(`part_000` lines 95-111): poll until a non-pending status or the attempt
budget runs out; on `'completed'` return the extracted text of the most
recent message (oracle `lastMessage`), otherwise throw an error whose
message interpolates the terminal status. -/
def getGPTResponseInner (retrieve : Nat → String) (lastMessage : String) :
    Except String String :=
  let final := (pollLoop retrieve maxAttempts).1
  if final == "completed" then
    .ok lastMessage
  else
    .error ("Assistant run ended with status: " ++ final)

/-- `getGPTResponse` (`part_000` lines 78-116): the surrounding
`catch` logs the inner error and rethrows
`new Error('Failed to get response from AI assistant')`, discarding the
inner message.  (The `index.js` near-duplicate instead rethrows the inner
error unchanged and has no attempt budget.) -/
def getGPTResponse (retrieve : Nat → String) (lastMessage : String) :
    Except String String :=
  match getGPTResponseInner retrieve lastMessage with
  | .ok v => .ok v
  | .error _ => .error "Failed to get response from AI assistant"

/-! ## The HTTP endpoint layer -/

/-- A JSON value as far as the `/query` validation discriminates them:
the source tests truthiness (`!query`), `typeof query !== 'string'`, and
`query.trim() === ''`. -/
inductive Jv where
  | vStr (s : String)
  | vNum (n : Int)
  | vBool (b : Bool)
  | vNull
  | vObj
deriving DecidableEq, Repr

/-- JavaScript truthiness of a `Jv`: `''`, `0`, `false`, `null` are falsy;
objects and arrays are truthy. -/
def truthy : Jv → Bool
  | .vStr s => !(s == "")
  | .vNum n => !(n == 0)
  | .vBool b => b
  | .vNull => false
  | .vObj => true

/-- `!query` where `query` is `req.body.query` (`none` = field absent,
giving `undefined`, which is falsy). -/
def truthyOpt : Option Jv → Bool
  | none => false
  | some v => truthy v

/-- `typeof query === 'string'` -/
def isStringJv : Option Jv → Bool
  | some (.vStr _) => true
  | _ => false

/-- `query.trim() === ''`, only reached (by `||` short-circuit) when
`query` is a truthy string. -/
def trimmedEmpty : Option Jv → Bool
  | some (.vStr s) => jsTrim s == ""
  | _ => false

/-- The validation guard of `POST /query` (`part_000` line 124):
`!query || typeof query !== 'string' || query.trim() === ''`. -/
def invalidQuery (q : Option Jv) : Bool :=
  !truthyOpt q || !isStringJv q || trimmedEmpty q

/-- The distinct JSON body shapes the server produces, one constructor per
literal object in the source; the error constructors' fixed `error` fields
are recovered by `errorLabel`. -/
inductive RespBody where
  /-- `{ error: "Invalid request", message: "Query is required and must be
  a non-empty string", example: ... }` -/
  | invalidRequest
  /-- `{ error: "Data unavailable", message: "Could not fetch rank data
  from Google Sheets. Please try again later." }` -/
  | dataUnavailable
  /-- `{ success: false, error: "Processing failed", message, timestamp }` -/
  | processingFailed (message : String)
  /-- `{ success: true, answer, timestamp }` -/
  | querySuccess (answer : String) (timestamp : String)
  /-- `{ status: 'healthy', timestamp }` -/
  | healthOk (status : String) (timestamp : String)
  /-- the `GET /` info object -/
  | rootInfo
  /-- `{ error: "Not Found", message: "Route <method> <path> does not
  exist", availableEndpoints: ... }` -/
  | notFound (method : String) (path : String)
  /-- the bare `res.sendStatus(200)` answer to a CORS preflight -/
  | corsOk
deriving DecidableEq, Repr

/-- The literal `error` field of each JSON error body in the source. -/
def errorLabel : RespBody → Option String
  | .invalidRequest => some "Invalid request"
  | .dataUnavailable => some "Data unavailable"
  | .processingFailed _ => some "Processing failed"
  | .notFound _ _ => some "Not Found"
  | _ => none

/-- An HTTP response: status code plus JSON body shape. -/
structure HttpResponse where
  status : Nat
  body : RespBody
deriving DecidableEq, Repr

/-- Which downstream services a request path actually consulted: `csv` is
set once `await getRankData()` is reached, `assistant` once
`await getGPTResponse(...)` is reached. -/
structure NetCalls where
  csv : Bool
  assistant : Bool
deriving DecidableEq, Repr

/-- `err.message || "An unexpected error occurred"` (`part_000` line 162). -/
def catchMessage (e : String) : String :=
  if e == "" then "An unexpected error occurred" else e

/-- The `POST /query` handler (`part_000` lines 119-170).  `q` is
`req.body.query`; `fetch` is the CSV HTTP oracle fed to `getRankData`;
`gpt` is the outcome of the assistant client; `nowIso` is the
`new Date().toISOString()` oracle.  Thrown errors land in the outer
`catch`, which answers 500 with the "Processing failed" shape carrying the
error's message. -/
def handlePostQuery (q : Option Jv) (fetch : Except String String)
    (gpt : Except String String) (nowIso : String) : HttpResponse × NetCalls :=
  if invalidQuery q then
    (⟨400, .invalidRequest⟩, ⟨false, false⟩)
  else
    match getRankData fetch with
    | .error e => (⟨500, .processingFailed (catchMessage e)⟩, ⟨true, false⟩)
    | .ok rankData =>
      if rankData.length == 0 then
        (⟨500, .dataUnavailable⟩, ⟨true, false⟩)
      else
        match gpt with
        | .error e => (⟨500, .processingFailed (catchMessage e)⟩, ⟨true, true⟩)
        | .ok answer => (⟨200, .querySuccess answer nowIso⟩, ⟨true, true⟩)

/-- HTTP methods the routing discriminates. -/
inductive Method where
  | GET
  | POST
  | OPTIONS
  | DELETE
  | PUT
deriving DecidableEq, Repr

/-- `req.method` as echoed by the catch-all 404 handler. -/
def methodToStr : Method → String
  | .GET => "GET"
  | .POST => "POST"
  | .OPTIONS => "OPTIONS"
  | .DELETE => "DELETE"
  | .PUT => "PUT"

/-- The whole request pipeline of `part_000`: CORS middleware first
(preflight short-circuits with a bare 200), then the registered routes in
order (`GET /`, `GET /health`, `POST /query`), then the catch-all 404
echoing method and path. -/
def app (m : Method) (path : String) (q : Option Jv)
    (fetch : Except String String) (gpt : Except String String)
    (nowIso : String) : HttpResponse × NetCalls :=
  if m = .OPTIONS then
    (⟨200, .corsOk⟩, ⟨false, false⟩)
  else if m = .GET ∧ path = "/" then
    (⟨200, .rootInfo⟩, ⟨false, false⟩)
  else if m = .GET ∧ path = "/health" then
    (⟨200, .healthOk "healthy" nowIso⟩, ⟨false, false⟩)
  else if m = .POST ∧ path = "/query" then
    handlePostQuery q fetch gpt nowIso
  else
    (⟨404, .notFound (methodToStr m) path⟩, ⟨false, false⟩)

/-! ## Shared lemmas -/

/-- The final `attempts` value of the polling loop never exceeds the
initial value plus the remaining fuel. -/
theorem pollAux_attempts_le (r : Nat → String) (fuel a : Nat) (s : String) :
    (pollAux r fuel a s).2 ≤ a + fuel := by
  induction fuel generalizing a s with
  | zero => simp [pollAux]
  | succ f ih =>
    simp only [pollAux]
    split
    · exact le_trans (ih (a + 1) (r (a + 1))) (by omega)
    · simp

/-- If every retrieved status is pending, the loop runs its fuel down
completely, ending at status `r (a + fuel)` with `attempts = a + fuel`. -/
theorem pollAux_pending (r : Nat → String)
    (h : ∀ n, r n = "queued" ∨ r n = "in_progress") (fuel a : Nat) :
    pollAux r fuel a (r a) = (r (a + fuel), a + fuel) := by
  induction fuel generalizing a with
  | zero => simp [pollAux]
  | succ f ih =>
    have hc : (r a == "queued" || r a == "in_progress") = true := by
      rcases h a with h1 | h1 <;> simp [h1]
    rw [pollAux, if_pos hc, ih (a + 1)]
    have hn : a + 1 + f = a + (f + 1) := by omega
    rw [hn]

/-! ## Claims -/

/-- C1: for every CSV body whose first non-blank line is a header with a
"Rank"-matching column at position `i` and a "Company"-matching column at
position `j` (in either order), `getRankData`'s parser returns one record
per subsequent non-blank line, in source row order, taking each record's
`Rank` field from cell `i` and its `Company` field from cell `j` of that
line, wherever those columns sit in the header. -/
theorem getRankData_maps_header_columns (csv header : String)
    (dataLines : List String) (hlines : linesOf csv = header :: dataLines)
    (i j : Nat)
    (hi : (colsOf header).findIdx? testRank = some i)
    (hj : (colsOf header).findIdx? testCompany = some j) :
    parseRankCsv csv = dataLines.map fun line =>
      { Rank := (colsOf line).getD i "", Company := (colsOf line).getD j "" } := by
  unfold parseRankCsv
  rw [hlines]
  simp only [hi, hj, fieldAt]

/-- Witness for C1: a CSV whose header holds the columns in Company,Rank
order is parsed into records in row order with the fields crossed over to
the right columns. -/
theorem getRankData_maps_header_columns_witness :
    parseRankCsv "Company,Rank\nAcme,1\nBeta,2" =
      [{ Rank := "1", Company := "Acme" }, { Rank := "2", Company := "Beta" }] := by
  have h := getRankData_maps_header_columns "Company,Rank\nAcme,1\nBeta,2"
    "Company,Rank" ["Acme,1", "Beta,2"] (by decide) 1 0 (by decide) (by decide)
  rw [h]
  decide

/-- C2: a `POST /query` whose body has a missing `query` field, a
non-string `query`, or a `query` that trims to the empty string is
answered 400 with the "Invalid request" body, and neither the CSV fetcher
nor the assistant client is consulted. -/
theorem postQuery_validation_rejects (q : Option Jv)
    (fetch gpt : Except String String) (nowIso : String)
    (h : q = none ∨ (∃ v, q = some v ∧ isStringJv q = false) ∨
      ∃ s, q = some (.vStr s) ∧ jsTrim s = "") :
    handlePostQuery q fetch gpt nowIso =
      (⟨400, .invalidRequest⟩, ⟨false, false⟩) := by
  have hinv : invalidQuery q = true := by
    rcases h with h | ⟨v, hv, hs⟩ | ⟨s, hs, ht⟩
    · subst h; rfl
    · subst hv
      simp [invalidQuery, hs]
    · subst hs
      simp [invalidQuery, trimmedEmpty, ht]
  unfold handlePostQuery
  rw [if_pos hinv]

/-- Witness for C2: the body `{ "query": 123 }` (a non-string value) is
rejected with a 400 and no downstream calls. -/
theorem postQuery_validation_rejects_witness :
    handlePostQuery (some (.vNum 123)) (.ok "Rank,Company\nAcme,1")
      (.ok "answer") "2026-01-01T00:00:00.000Z" =
      (⟨400, .invalidRequest⟩, ⟨false, false⟩) :=
  postQuery_validation_rejects (some (.vNum 123)) _ _ _
    (Or.inr (Or.inl ⟨.vNum 123, rfl, rfl⟩))

/-- C3: the status-polling loop of `getGPTResponse` performs at most
`maxAttempts = 60` one-second polls — the final `attempts` counter never
exceeds 60 — and when every retrieved status stays `queued` or
`in_progress` forever, `getGPTResponse` still terminates, with a failure
(never an unbounded wait). -/
theorem getGPTResponse_poll_bounded (retrieve : Nat → String)
    (lastMessage : String) :
    (pollLoop retrieve maxAttempts).2 ≤ 60 ∧
    ((∀ n, retrieve n = "queued" ∨ retrieve n = "in_progress") →
      getGPTResponse retrieve lastMessage =
        .error "Failed to get response from AI assistant") := by
  constructor
  · exact pollAux_attempts_le retrieve maxAttempts 0 (retrieve 0)
  · intro h
    have hrun : pollLoop retrieve maxAttempts = (retrieve 60, 60) := by
      unfold pollLoop maxAttempts
      exact pollAux_pending retrieve h 60 0
    have hne : ((retrieve 60) == "completed") = false := by
      rcases h 60 with h1 | h1 <;> simp [h1]
    unfold getGPTResponse getGPTResponseInner
    rw [hrun]
    simp [hne]

/-- Witness for C3: with a run that reports `queued` at every retrieval,
the loop stops with `attempts = 60 ≤ 60` and the client fails. -/
theorem getGPTResponse_poll_bounded_witness :
    (pollLoop (fun _ => "queued") maxAttempts).2 ≤ 60 ∧
    getGPTResponse (fun _ => "queued") "unused" =
      .error "Failed to get response from AI assistant" :=
  ⟨(getGPTResponse_poll_bounded (fun _ => "queued") "unused").1,
   (getGPTResponse_poll_bounded (fun _ => "queued") "unused").2
     (fun _ => Or.inl rfl)⟩

/-- Counterexample to C5: a run whose every retrieval reports the terminal
status `cancelled` makes `getGPTResponse` fail with the fixed message
`'Failed to get response from AI assistant'`, which does not contain the
terminal status `cancelled` even case-insensitively — the status-carrying
inner error is swallowed by the function's own `catch`. -/
theorem getGPTResponse_error_drops_status :
    getGPTResponse (fun _ => "cancelled") "the answer text" =
      .error "Failed to get response from AI assistant" ∧
    natInfix (foldCase "cancelled".data)
      (foldCase "Failed to get response from AI assistant".data) = false := by
  constructor
  · rfl
  · decide

/-- C5 as amended: when the run ends in a non-completed state (terminal
state or budget exhaustion), the inner error raised by `getGPTResponse`'s
`try` block carries that status in its message, but the surrounding
`catch` replaces it, so the error the function actually throws has the
fixed message `'Failed to get response from AI assistant'`; the status
reaches only the server-side log. -/
theorem getGPTResponse_inner_carries_status (retrieve : Nat → String)
    (lastMessage : String)
    (h : (pollLoop retrieve maxAttempts).1 ≠ "completed") :
    getGPTResponseInner retrieve lastMessage =
      .error ("Assistant run ended with status: " ++
        (pollLoop retrieve maxAttempts).1) ∧
    getGPTResponse retrieve lastMessage =
      .error "Failed to get response from AI assistant" := by
  have hne : ((pollLoop retrieve maxAttempts).1 == "completed") = false := by
    simp [h]
  unfold getGPTResponse getGPTResponseInner
  simp [hne]

/-- Witness for C5's amended statement: a run that immediately reports
`expired`. -/
theorem getGPTResponse_inner_carries_status_witness :
    getGPTResponseInner (fun _ => "expired") "unused" =
      .error ("Assistant run ended with status: " ++
        (pollLoop (fun _ => "expired") maxAttempts).1) ∧
    getGPTResponse (fun _ => "expired") "unused" =
      .error "Failed to get response from AI assistant" :=
  getGPTResponse_inner_carries_status (fun _ => "expired") "unused" (by decide)

/-- Counterexample to C4: a valid query whose CSV fetch throws is answered
500 — but with the catch-all "Processing failed" body shape (carrying
`getRankData`'s rethrown message), not the "Data unavailable" shape, which
the source only produces for an empty parsed result. -/
theorem postQuery_fetch_error_not_dataUnavailable :
    (handlePostQuery (some (.vStr "What is the top ranked company?"))
        (.error "getaddrinfo ENOTFOUND") (.ok "unused")
        "2026-01-01T00:00:00.000Z").1 =
      ⟨500, .processingFailed "Failed to fetch rank data from Google Sheets"⟩ ∧
    RespBody.processingFailed "Failed to fetch rank data from Google Sheets" ≠
      RespBody.dataUnavailable ∧
    errorLabel (.processingFailed "Failed to fetch rank data from Google Sheets") ≠
      some "Data unavailable" := by
  refine ⟨rfl, by decide, by decide⟩

/-- C4 as amended: for every request with a valid non-empty string query,
if the CSV fetch throws then the handler responds 500 with the generic
"Processing failed" JSON shape whose message is `getRankData`'s rethrown
`'Failed to fetch rank data from Google Sheets'`, and the assistant client
is never invoked on that request. -/
theorem postQuery_fetch_error_500_no_assistant (s : String)
    (hq : jsTrim s ≠ "") (e : String) (gpt : Except String String)
    (nowIso : String) :
    handlePostQuery (some (.vStr s)) (.error e) gpt nowIso =
      (⟨500, .processingFailed "Failed to fetch rank data from Google Sheets"⟩,
        ⟨true, false⟩) := by
  have hs : s ≠ "" := by
    intro he
    subst he
    exact hq rfl
  have hinv : invalidQuery (some (.vStr s)) = false := by
    simp [invalidQuery, truthyOpt, truthy, isStringJv, trimmedEmpty, hs, hq]
  unfold handlePostQuery
  rw [if_neg (by simp [hinv])]
  rfl

/-- Witness for C4's amended statement. -/
theorem postQuery_fetch_error_500_no_assistant_witness :
    handlePostQuery (some (.vStr "top company?")) (.error "timeout of 10000ms exceeded")
      (.ok "unused") "2026-01-01T00:00:00.000Z" =
      (⟨500, .processingFailed "Failed to fetch rank data from Google Sheets"⟩,
        ⟨true, false⟩) :=
  postQuery_fetch_error_500_no_assistant "top company?" (by decide) _ _ _

/-- C6: a CSV body that is empty or holds only a header line (at most one
non-blank line) parses to the empty record sequence, and on a valid query
the `POST /query` handler maps that empty sequence to the 500 "Data
unavailable" response without consulting the assistant. -/
theorem emptyCsv_dataUnavailable (csv : String)
    (h : (linesOf csv).length ≤ 1) (q : Option Jv)
    (hq : invalidQuery q = false) (gpt : Except String String)
    (nowIso : String) :
    parseRankCsv csv = [] ∧
    handlePostQuery q (.ok csv) gpt nowIso =
      (⟨500, .dataUnavailable⟩, ⟨true, false⟩) := by
  have hparse : parseRankCsv csv = [] := by
    unfold parseRankCsv
    match hl : linesOf csv with
    | [] => rfl
    | [header] => rfl
    | header :: b :: t =>
      rw [hl] at h
      simp at h
  refine ⟨hparse, ?_⟩
  unfold handlePostQuery
  rw [if_neg (by simp [hq])]
  simp [getRankData, hparse]

/-- Witness for C6: a header-only CSV with a valid query. -/
theorem emptyCsv_dataUnavailable_witness :
    parseRankCsv "Rank,Company" = [] ∧
    handlePostQuery (some (.vStr "who is first?")) (.ok "Rank,Company")
      (.ok "unused") "2026-01-01T00:00:00.000Z" =
      (⟨500, .dataUnavailable⟩, ⟨true, false⟩) :=
  emptyCsv_dataUnavailable "Rank,Company" (by decide)
    (some (.vStr "who is first?")) (by decide) _ _

/-- C7: when the header has no column matching `rank` (case-insensitive
substring) the parser still succeeds and every returned record's `Rank`
field is the empty string, and likewise for a header with no
`company`-matching column and the `Company` field. -/
theorem missingColumns_default_empty (csv header : String)
    (dataLines : List String) (hlines : linesOf csv = header :: dataLines) :
    ((colsOf header).findIdx? testRank = none →
      ∀ rec ∈ parseRankCsv csv, rec.Rank = "") ∧
    ((colsOf header).findIdx? testCompany = none →
      ∀ rec ∈ parseRankCsv csv, rec.Company = "") := by
  unfold parseRankCsv
  rw [hlines]
  constructor <;> intro h rec hrec <;>
    simp only [List.mem_map] at hrec <;>
    obtain ⟨line, _, hline⟩ := hrec <;>
    simp only [h, fieldAt] at hline <;>
    rw [← hline]

/-- Witness for C7: a CSV whose header matches neither column name parses
its one data row to a record with both fields empty. -/
theorem missingColumns_default_empty_witness :
    (⟨"", ""⟩ : RankRecord) ∈ parseRankCsv "Foo,Bar\n1,2" ∧
    (⟨"", ""⟩ : RankRecord).Rank = "" ∧
    (⟨"", ""⟩ : RankRecord).Company = "" := by
  have h := missingColumns_default_empty "Foo,Bar\n1,2" "Foo,Bar" ["1,2"]
    (by decide)
  have hmem : (⟨"", ""⟩ : RankRecord) ∈ parseRankCsv "Foo,Bar\n1,2" := by
    have : parseRankCsv "Foo,Bar\n1,2" = [⟨"", ""⟩] := by decide
    rw [this]
    exact List.mem_singleton.mpr rfl
  exact ⟨hmem, h.1 (by decide) _ hmem, h.2 (by decide) _ hmem⟩

/-- C8: every `GET /health` request is answered 200 with status
`"healthy"` and the serialization of the current time
(`new Date().toISOString()`, modelled by the clock oracle `nowIso`); the
right-hand side mentions neither the CSV oracle nor the assistant oracle,
and the call flags are both false, so the result is computed without
invoking either downstream service and is independent of their
availability. -/
theorem health_always_healthy (q : Option Jv)
    (fetch gpt : Except String String) (nowIso : String) :
    app .GET "/health" q fetch gpt nowIso =
      (⟨200, .healthOk "healthy" nowIso⟩, ⟨false, false⟩) := by
  unfold app
  rw [if_neg (by decide), if_neg (by simp), if_pos (by simp)]

/-- C9: the per-field cleanup removes at most one leading and one trailing
double quote and then trims surrounding whitespace: wrapping any content
in one pair of quotes cleans to exactly the trimmed content; and the
quoted source field `"Acme, Inc."` is still split at its embedded comma
(naive split), with the matched cell returned without its outer quote. -/
theorem cleanField_strips_one_quote_pair :
    (∀ s : List Char, cleanField ('"' :: (s ++ ['"'])) = trimChars s) ∧
    parseRankCsv "Rank,Company\n1,\"Acme, Inc.\"" =
      [{ Rank := "1", Company := "Acme" }] := by
  constructor
  · intro s
    simp [cleanField, stripQuotes, dropLeadQuote, dropTrailQuote,
      List.reverse_append]
  · decide

/-- C10: the CSV parsing stage is total over response bodies — for every
string body it yields exactly one record per data line (one fewer than the
non-blank line count, never throwing) — and a cell index at or beyond the
end of a short row yields the empty string rather than an out-of-bounds
failure. -/
theorem parseRankCsv_total (csv : String) :
    (parseRankCsv csv).length = (linesOf csv).length - 1 ∧
    ∀ (cols : List String) (i : Nat), cols.length ≤ i →
      fieldAt cols (some i) = "" := by
  constructor
  · unfold parseRankCsv
    match hl : linesOf csv with
    | [] => rfl
    | header :: dataLines => simp
  · intro cols i hi
    simp only [fieldAt, List.getD_eq_getElem?_getD]
    rw [List.getElem?_eq_none hi]
    rfl

/-- Witness for C10: a body whose single data row is shorter than the
matched column index, evaluated concretely. -/
theorem parseRankCsv_total_witness :
    (parseRankCsv "Rank,Company\n7").length =
      (linesOf "Rank,Company\n7").length - 1 ∧
    fieldAt ["7"] (some 1) = "" :=
  ⟨(parseRankCsv_total "Rank,Company\n7").1,
   (parseRankCsv_total "Rank,Company\n7").2 ["7"] 1 (by decide)⟩

end ChatbotBackend
